import Mathlib

/-
Verification development for the loan-management-system core: the
LoanApplication lifecycle (loans/services.py, loans/models.py) and the
fraud detection service (fraud/services.py, fraud/models.py), embedded
shallowly.  Database state is passed explicitly as a `State` record;
Django querysets become list filters over that state; exceptions become
an `Err` sum returned through `Except`; `@transaction.atomic` on
`submit_loan` becomes a wrapper that discards all writes of the call on
error.  Timestamps are integers (hours); the 24-hour window is `now - 24`.
Decimal loan amounts are integers at currency-unit granularity: every
threshold in the code and every input in the claims is integral.
-/

/-- Status choices for a loan application (loans/models.py). -/
inductive Status
  | PENDING
  | APPROVED
  | REJECTED
  | FLAGGED
deriving DecidableEq

/-- Reasons taxonomy of FraudFlag (fraud/models.py).  Note that the
taxonomy has no TOO_MANY_APPLICATIONS member, although
fraud/services.py line 163 tries to read one. -/
inductive Reason
  | SUSPICIOUS_ACTIVITY
  | INCOMPLETE_KYC
  | INCONSISTENT_INFORMATION
  | HIGH_RISK_PROFILE
  | UNUSUAL_TRANSACTION
  | INACTIVE_DEBIT_CARD
  | DIRECT_DEBIT_FAILURE
  | OTHER
deriving DecidableEq

/-- The stored string of each Reason member (TextChoices value). -/
def Reason.value : Reason → String
  | .SUSPICIOUS_ACTIVITY => "SUSPICIOUS_ACTIVITY"
  | .INCOMPLETE_KYC => "INCOMPLETE_KYC"
  | .INCONSISTENT_INFORMATION => "INCONSISTENT_INFORMATION"
  | .HIGH_RISK_PROFILE => "HIGH_RISK_PROFILE"
  | .UNUSUAL_TRANSACTION => "UNUSUAL_TRANSACTION"
  | .INACTIVE_DEBIT_CARD => "INACTIVE_DEBIT_CARD"
  | .DIRECT_DEBIT_FAILURE => "DIRECT_DEBIT_FAILURE"
  | .OTHER => "OTHER"

/-- Calendar date; only the year is inspected by the code (is_high_risk),
the full triple is kept for duplicate-account equality matching. -/
structure Date where
  year : Nat
  month : Nat
  day : Nat
deriving DecidableEq

/-- Customer (users/models.py).  date_of_birth and the identity fields are
required for customers per the model help text; phone_number is nullable. -/
structure Customer where
  id : Nat
  firstName : String
  lastName : String
  email : String
  phoneNumber : Option String
  dateOfBirth : Date
  flaggedForFraud : Bool
deriving DecidableEq

/-- LoanApplication row (loans/models.py).  `id = none` models an
unsaved in-memory candidate (Django pk is None before save); the user
field carries the owning Customer object as the Django FK object does.
date_applied is set from the clock at construction time in the model;
only persisted rows are ever queried by date. -/
structure LoanApplication where
  id : Option Nat
  user : Customer
  amountRequested : Int
  purpose : String
  status : Status
  dateApplied : Int
deriving DecidableEq

/-- FraudFlag row (fraud/models.py). -/
structure FraudFlag where
  loanId : Nat
  reason : String
  comments : String
  resolved : Bool
deriving DecidableEq

/-- The database state: all persisted rows plus the next fresh primary key
for loan applications. -/
structure State where
  customers : List Customer
  loans : List LoanApplication
  flags : List FraudFlag
  nextId : Nat
deriving DecidableEq

deriving instance DecidableEq for Except

/-- Exceptions raised by the embedded code, one constructor per Python
exception class, carrying the message of the raise site. -/
inductive Err
  | loanApplicationError (msg : String)
  | fraudDetectionError (msg : String)
  | valueError (msg : String)
  | attributeError (msg : String)
deriving DecidableEq

/-- Mirrors Python str.split(sep): splits into the list of segments
between occurrences of the separator, keeping empty segments. -/
def splitOnChar (sep : Char) : List Char → List (List Char)
  | [] => [[]]
  | c :: cs =>
    let r := splitOnChar sep cs
    if c = sep then [] :: r
    else
      match r with
      | s :: rest => (c :: s) :: rest
      | [] => [[c]]

/-- email.split("@")[-1]: the final segment after the last at sign. -/
def emailDomain (e : String) : String :=
  String.mk ((splitOnChar '@' e.toList).getLastD [])

/-- Python str.endswith / Django __endswith: unanchored suffix match. -/
def endsWithStr (s sfx : String) : Bool :=
  sfx.toList.isSuffixOf s.toList

/-- Django Model.save(): insert with a fresh primary key when pk is None,
otherwise update the row with that pk in place. -/
def LoanApplication.save (l : LoanApplication) (s : State) :
    State × LoanApplication :=
  match l.id with
  | none =>
      let l2 := { l with id := some s.nextId }
      ({ s with loans := s.loans ++ [l2], nextId := s.nextId + 1 }, l2)
  | some i =>
      ({ s with loans := s.loans.map (fun x => if x.id = some i then l else x) }, l)

/-- LoanApplication.flag_as_fraud (loans/models.py): creates a FraudFlag
row, rejecting a falsy (absent or empty) reason. -/
def LoanApplication.flag_as_fraud (s : State) (loanId : Nat)
    (reason : Option String) (comments : String) : Except Err State :=
  if reason.getD "" = "" then
    Except.error (Err.valueError "Reason for flagging must be provided.")
  else
    Except.ok { s with
      flags := s.flags ++
        [{ loanId := loanId, reason := reason.getD "", comments := comments,
           resolved := false }] }

/-- LoanApplication.is_high_risk (loans/models.py): amount above 1,000,000
and owner born before 2000. -/
def LoanApplication.is_high_risk (l : LoanApplication) : Bool :=
  decide (l.amountRequested > 1000000) && decide (l.user.dateOfBirth.year < 2000)

/-- FraudDetectionService.MAX_LOAN_AMOUNT (fraud/services.py). -/
def FraudDetectionService.MAX_LOAN_AMOUNT : Int := 5000000

/-- FraudDetectionService._amount_exceeds_limit. -/
def FraudDetectionService.amount_exceeds_limit (l : LoanApplication) : Bool :=
  decide (l.amountRequested > FraudDetectionService.MAX_LOAN_AMOUNT)

/-- FraudDetectionService.is_fraudulent: amount over the hard ceiling AND
the high-risk composite. -/
def FraudDetectionService.is_fraudulent (l : LoanApplication) : Bool :=
  FraudDetectionService.amount_exceeds_limit l && l.is_high_risk

/-- FraudDetectionService.suspicious_email_domain: counts every customer
whose email merely ends with the string after the last at sign of the
owner email (Django email__endswith, unanchored). -/
def FraudDetectionService.suspicious_email_domain (s : State) (user : Customer) : Bool :=
  let domain := emailDomain user.email
  (s.customers.filter (fun c => endsWithStr c.email domain)).length > 10

/-- FraudDetectionService.too_many_applications: counts the persisted
applications of the user with date_applied within the trailing 24 hours;
fires above the threshold 3. -/
def FraudDetectionService.too_many_applications (s : State) (now : Int) (user : Customer) : Bool :=
  let threshold := 3
  (s.loans.filter
    (fun l => decide (l.user.id = user.id ∧ l.dateApplied ≥ now - 24))).length > threshold

/-- FraudDetectionService.duplicate_account: OR of equality conditions for
each truthy profile field, then excludes the user itself; with no truthy
field the empty Q() matches every customer, as in Django. -/
def FraudDetectionService.duplicate_account (s : State) (user : Customer) : Bool :=
  let conds : Customer → List Bool := fun c =>
    (if user.email ≠ "" then [decide (c.email = user.email)] else []) ++
    (if user.firstName ≠ "" then [decide (c.firstName = user.firstName)] else []) ++
    (if user.lastName ≠ "" then [decide (c.lastName = user.lastName)] else []) ++
    [decide (c.dateOfBirth = user.dateOfBirth)] ++
    (match user.phoneNumber with
     | some p => if p ≠ "" then [decide (c.phoneNumber = some p)] else []
     | none => [])
  s.customers.any (fun c =>
    decide (c.id ≠ user.id) &&
    (match conds c with
     | [] => true
     | l => l.any id))

/-- Flag entries accepted by FraudDetectionService.flag_loan: a dict with
reason and comments keys, a bare FraudFlag.Reason member, or any other
Python object (the unsupported branch); the string argument of
unsupported stands for the repr interpolated into the error message. -/
inductive FlagEntry
  | dict (reason : Option String) (comments : String)
  | reasonCode (r : Reason)
  | unsupported (shown : String)
deriving DecidableEq

/-- The flag-creation loop of FraudDetectionService.flag_loan: processes
entries left to right, stopping at the first failing entry with the
writes of the earlier entries already in the state (no transaction wraps
this loop). -/
def processFlags (s : State) (loanId : Nat) : List FlagEntry → State × Option Err
  | [] => (s, none)
  | e :: rest =>
    match e with
    | .dict r c =>
        match LoanApplication.flag_as_fraud s loanId r c with
        | .ok s2 => processFlags s2 loanId rest
        | .error err => (s, some err)
    | .reasonCode v =>
        match LoanApplication.flag_as_fraud s loanId (some v.value) "" with
        | .ok s2 => processFlags s2 loanId rest
        | .error err => (s, some err)
    | .unsupported d => (s, some (Err.valueError ("Unsupported flag entry: " ++ d)))

/-- The primary key the loan holds after its save inside flag_loan: the
existing pk, or the fresh one that the insert assigns. -/
def assignedLoanId (s : State) (loan : LoanApplication) : Nat :=
  match loan.id with
  | some i => i
  | none => s.nextId

/-- FraudDetectionService.flag_loan: guards (non-empty list, not already
FLAGGED, meets is_fraudulent), then saves the FLAGGED status and creates
one FraudFlag per entry.  The status save precedes the flag loop, so a
failing entry leaves the status change persisted.  The audit log and the
administrator alert are external fire-and-forget effects with no state. -/
def FraudDetectionService.flag_loan (s : State) (loan : LoanApplication)
    (flags : List FlagEntry) : State × Except Err LoanApplication :=
  if flags = [] then
    (s, Except.error (Err.valueError "At least one flag must be provided."))
  else if loan.status = Status.FLAGGED then
    (s, Except.error (Err.fraudDetectionError "Loan application is already flagged for fraud."))
  else if FraudDetectionService.is_fraudulent loan = false then
    (s, Except.error (Err.fraudDetectionError "Loan application does not meet fraud criteria."))
  else
    match processFlags (({ loan with status := Status.FLAGGED }).save s).1
        (assignedLoanId s loan) flags with
    | (s2, none) => (s2, Except.ok (({ loan with status := Status.FLAGGED }).save s).2)
    | (s2, some e) => (s2, Except.error e)

/-- Modelled from the spec: fraud/constants.py is not under src/ (only the
line importing it in fraud/services.py is); the spec names the clean
verdict CLEAN. -/
def CLEAN : String := "clean"

/-- Modelled from the spec: fraud/constants.py is not under src/; the spec
names the fraud verdict FRAUD, and the test suite under src
(loans/tests.py) asserts the verdict string equals "fraudulent". -/
def FRAUD : String := "fraudulent"

/-- The reasons accumulated by run_fraud_checks after the
too-many-applications check, in discovery order: suspicious email domain,
amount over limit, duplicate account (which appends two codes). -/
def FraudDetectionService.fraud_reasons (s : State) (loan : LoanApplication) : List Reason :=
  (if FraudDetectionService.suspicious_email_domain s loan.user
   then [Reason.SUSPICIOUS_ACTIVITY] else []) ++
  (if FraudDetectionService.amount_exceeds_limit loan
   then [Reason.HIGH_RISK_PROFILE] else []) ++
  (if FraudDetectionService.duplicate_account s loan.user
   then [Reason.SUSPICIOUS_ACTIVITY, Reason.INCONSISTENT_INFORMATION] else [])

/-- FraudDetectionService.run_fraud_checks.  When too_many_applications
fires, the code reads FraudFlag.Reason.TOO_MANY_APPLICATIONS, a member
the Reason taxonomy does not define, so Python raises AttributeError
there; otherwise the remaining rules accumulate reasons and a non-empty
list is handed to flag_loan (which mutates state).  The returned triple
carries the loan object, mutated in place by flag_loan in Python. -/
def FraudDetectionService.run_fraud_checks (s : State) (now : Int) (loan : LoanApplication) :
    State × Except Err (String × List Reason × LoanApplication) :=
  if FraudDetectionService.too_many_applications s now loan.user then
    (s, Except.error (Err.attributeError
      "type object Reason has no attribute TOO_MANY_APPLICATIONS"))
  else if FraudDetectionService.fraud_reasons s loan = [] then
    (s, Except.ok (CLEAN, [], loan))
  else
    match FraudDetectionService.flag_loan s loan
        ((FraudDetectionService.fraud_reasons s loan).map FlagEntry.reasonCode) with
    | (s1, Except.ok loan2) =>
        (s1, Except.ok (FRAUD, FraudDetectionService.fraud_reasons s loan, loan2))
    | (s1, Except.error e) => (s1, Except.error e)

/-- check_eligibility (loans/services.py): rejects flagged customers and
customers with any application dated within the trailing 24 hours. -/
def check_eligibility (s : State) (now : Int) (customer : Customer) : Except Err Unit :=
  if customer.flaggedForFraud then
    Except.error (Err.loanApplicationError "User is flagged for fraud.")
  else if s.loans.any
      (fun l => decide (l.user.id = customer.id ∧ l.dateApplied ≥ now - 24)) then
    Except.error (Err.loanApplicationError
      "You cannot submit another loan application within 24 hours of your last one.")
  else
    Except.ok ()

/-- The body of submit_loan, before the transaction wrapper.  The caller
is a customer (the hasattr customer guard of the Python code holds).
The candidate is constructed in memory and not saved before the fraud
checks run; note the comparison of the verdict with the literal
"fraudlent", exactly as written at loans/services.py line 61. -/
def submit_loan_body (s : State) (now : Int) (customer : Customer)
    (amount : Int) (purpose : String) : State × Except Err LoanApplication :=
  match check_eligibility s now customer with
  | Except.error e => (s, Except.error e)
  | Except.ok _ =>
      let loan : LoanApplication :=
        { id := none, user := customer, amountRequested := amount,
          purpose := purpose, status := Status.PENDING, dateApplied := now }
      match FraudDetectionService.run_fraud_checks s now loan with
      | (s1, Except.error e) => (s1, Except.error e)
      | (s1, Except.ok (verdict, reasons, loan2)) =>
          if verdict = "fraudlent" then
            (s1, Except.error (Err.loanApplicationError
              ("Loan is flagged for fraud due to: " ++
                String.intercalate ", " (reasons.map Reason.value))))
          else
            let r := loan2.save s1
            (r.1, Except.ok r.2)

/-- submit_loan (loans/services.py), decorated with @transaction.atomic:
when the body raises, every write made during the call is rolled back, so
the error leaves the entry state. -/
def submit_loan (s : State) (now : Int) (customer : Customer)
    (amount : Int) (purpose : String) : State × Except Err LoanApplication :=
  match submit_loan_body s now customer amount purpose with
  | (s2, Except.ok loan) => (s2, Except.ok loan)
  | (_, Except.error e) => (s, Except.error e)

/-- LoanManagementService.approve_loan: pending gate (with the unreachable
flagged check kept), standalone is_fraudulent pre-check, then persist
APPROVED. -/
def LoanManagementService.approve_loan (s : State) (loan : LoanApplication) :
    State × Except Err LoanApplication :=
  if loan.status ≠ Status.PENDING then
    (s, Except.error (Err.loanApplicationError "Loan application is not in a pending state."))
  else if loan.status = Status.FLAGGED then
    (s, Except.error (Err.loanApplicationError "Cannot approve a flagged loan."))
  else if FraudDetectionService.is_fraudulent loan then
    (s, Except.error (Err.fraudDetectionError "Loan is flagged as fraudulent."))
  else
    let r := ({ loan with status := Status.APPROVED }).save s
    (r.1, Except.ok r.2)

/-- LoanManagementService.reject_loan: rejects unless the application is
already APPROVED or REJECTED; no other state is excluded. -/
def LoanManagementService.reject_loan (s : State) (loan : LoanApplication) :
    State × Except Err LoanApplication :=
  if loan.status = Status.APPROVED then
    (s, Except.error (Err.loanApplicationError "Cannot reject an approved loan."))
  else if loan.status = Status.REJECTED then
    (s, Except.error (Err.loanApplicationError "Loan application has already been rejected."))
  else
    let r := ({ loan with status := Status.REJECTED }).save s
    (r.1, Except.ok r.2)

/-- LoanManagementService.flag_loan: admin action; pending gate, then the
fraud-service flag_loan, returning the loan object (mutated in place by
the service in Python). -/
def LoanManagementService.flag_loan (s : State) (loan : LoanApplication)
    (flags : List FlagEntry) : State × Except Err LoanApplication :=
  if loan.status ≠ Status.PENDING then
    (s, Except.error (Err.loanApplicationError "Loan application is not in a pending state."))
  else
    match FraudDetectionService.flag_loan s loan flags with
    | (s1, Except.ok loan2) => (s1, Except.ok loan2)
    | (s1, Except.error e) => (s1, Except.error e)

/-- An entry the flag-creation loop accepts without raising: a dict entry
with a truthy reason, or a bare reason-code entry. -/
def entryWellFormed : FlagEntry → Bool
  | .dict r _ => !decide (r.getD "" = "")
  | .reasonCode _ => true
  | .unsupported _ => false

/-- The FraudFlag row that a well-formed entry produces for a loan pk. -/
def entryToFlag (i : Nat) : FlagEntry → FraudFlag
  | .dict r c => { loanId := i, reason := r.getD "", comments := c, resolved := false }
  | .reasonCode v => { loanId := i, reason := v.value, comments := "", resolved := false }
  | .unsupported _ => { loanId := i, reason := "", comments := "", resolved := false }

/-- The state after updating the loan row with primary key i. -/
def updateLoanRow (s : State) (i : Nat) (l2 : LoanApplication) : State :=
  { s with loans := s.loans.map (fun x => if x.id = some i then l2 else x) }

/-- Fixture: an unflagged customer born 1995 with no application history. -/
def custC1 : Customer :=
  { id := 1, firstName := "Ama", lastName := "Bello", email := "ama@cone.com",
    phoneNumber := some "08010000001", dateOfBirth := { year := 1995, month := 1, day := 1 },
    flaggedForFraud := false }

def stateC1 : State := { customers := [custC1], loans := [], flags := [], nextId := 0 }

/-- Fixture: the in-memory candidate that Submit builds for custC1 at
now = 1000 with amount 6,000,000. -/
def candC1 : LoanApplication :=
  { id := none, user := custC1, amountRequested := 6000000, purpose := "BUSINESS",
    status := Status.PENDING, dateApplied := 1000 }

def custC2 : Customer :=
  { id := 2, firstName := "Bisi", lastName := "Ade", email := "bisi@ctwo.com",
    phoneNumber := some "08010000002", dateOfBirth := { year := 1990, month := 1, day := 1 },
    flaggedForFraud := false }

/-- Fixture: amount 2,000,000 (over the high-risk line, under the hard
ceiling), owner born 1990. -/
def loanC2 : LoanApplication :=
  { id := some 0, user := custC2, amountRequested := 2000000, purpose := "PERSONAL",
    status := Status.PENDING, dateApplied := 0 }

def loanC2w : LoanApplication :=
  { id := some 1, user := custC2, amountRequested := 6000000, purpose := "BUSINESS",
    status := Status.PENDING, dateApplied := 0 }

def custC3 : Customer :=
  { id := 3, firstName := "Chi", lastName := "Okoro", email := "chi@cthree.com",
    phoneNumber := some "08010000003", dateOfBirth := { year := 1995, month := 1, day := 1 },
    flaggedForFraud := false }

/-- Fixture: a persisted PENDING application that trips the
amount-exceeds-limit rule and passes the flag gate. -/
def loanC3 : LoanApplication :=
  { id := some 0, user := custC3, amountRequested := 6000000, purpose := "BUSINESS",
    status := Status.PENDING, dateApplied := 0 }

def stateC3 : State := { customers := [custC3], loans := [loanC3], flags := [], nextId := 1 }

def custC3w : Customer :=
  { id := 31, firstName := "Dayo", lastName := "Musa", email := "dayo@cthreew.com",
    phoneNumber := some "08010000031", dateOfBirth := { year := 2005, month := 1, day := 1 },
    flaggedForFraud := false }

def stateC3w : State := { customers := [custC3w], loans := [], flags := [], nextId := 0 }

/-- Fixture: a candidate that trips no rule, so the verdict is CLEAN. -/
def loanC3w : LoanApplication :=
  { id := none, user := custC3w, amountRequested := 1000, purpose := "PERSONAL",
    status := Status.PENDING, dateApplied := 10 }

def custC4 : Customer :=
  { id := 4, firstName := "Efe", lastName := "Ojo", email := "efe@cfour.com",
    phoneNumber := some "08010000004", dateOfBirth := { year := 1990, month := 1, day := 1 },
    flaggedForFraud := false }

/-- Fixture: a modest PENDING application (amount 1000), far below the
is_fraudulent gate. -/
def loanC4 : LoanApplication :=
  { id := some 0, user := custC4, amountRequested := 1000, purpose := "PERSONAL",
    status := Status.PENDING, dateApplied := 0 }

def stateC4 : State := { customers := [custC4], loans := [loanC4], flags := [], nextId := 1 }

def loanC4w : LoanApplication :=
  { id := some 0, user := custC4, amountRequested := 6000000, purpose := "BUSINESS",
    status := Status.PENDING, dateApplied := 0 }

def stateC4w : State := { customers := [custC4], loans := [loanC4w], flags := [], nextId := 1 }

def entriesC4w : List FlagEntry :=
  [FlagEntry.reasonCode Reason.SUSPICIOUS_ACTIVITY,
   FlagEntry.dict (some "OTHER") "manual review note"]

def custC5 : Customer :=
  { id := 5, firstName := "Femi", lastName := "Balogun", email := "femi@cfive.com",
    phoneNumber := some "08010000005", dateOfBirth := { year := 1992, month := 1, day := 1 },
    flaggedForFraud := false }

def loanC5 : LoanApplication :=
  { id := some 0, user := custC5, amountRequested := 6000000, purpose := "BUSINESS",
    status := Status.PENDING, dateApplied := 0 }

def stateC5 : State := { customers := [custC5], loans := [loanC5], flags := [], nextId := 1 }

def custC5f : Customer :=
  { id := 51, firstName := "Gozie", lastName := "Nwosu", email := "gozie@cfivef.com",
    phoneNumber := some "08010000051", dateOfBirth := { year := 1992, month := 1, day := 1 },
    flaggedForFraud := true }

def stateC5f : State := { customers := [custC5f], loans := [], flags := [], nextId := 0 }

/-- Fixture: a customer with flagged_for_fraud set. -/
def custC6 : Customer :=
  { id := 6, firstName := "Hadiza", lastName := "Sani", email := "hadiza@csix.com",
    phoneNumber := some "08010000006", dateOfBirth := { year := 1988, month := 1, day := 1 },
    flaggedForFraud := true }

def stateC6 : State := { customers := [custC6], loans := [], flags := [], nextId := 0 }

def custC7 : Customer :=
  { id := 7, firstName := "Ibrahim", lastName := "Yusuf", email := "ibrahim@cseven.com",
    phoneNumber := some "08010000007", dateOfBirth := { year := 1991, month := 1, day := 1 },
    flaggedForFraud := false }

/-- Fixture: a FLAGGED application. -/
def loanC7 : LoanApplication :=
  { id := some 0, user := custC7, amountRequested := 2000, purpose := "PERSONAL",
    status := Status.FLAGGED, dateApplied := 0 }

def stateC7 : State := { customers := [custC7], loans := [loanC7], flags := [], nextId := 1 }

/-- Fixture: an already-REJECTED application. -/
def loanC7b : LoanApplication :=
  { id := some 0, user := custC7, amountRequested := 2000, purpose := "PERSONAL",
    status := Status.REJECTED, dateApplied := 0 }

def stateC7b : State := { customers := [custC7], loans := [loanC7b], flags := [], nextId := 1 }

def custC8 : Customer :=
  { id := 8, firstName := "Ngozi", lastName := "Eze", email := "ngozi@ceight.com",
    phoneNumber := some "08010000008", dateOfBirth := { year := 1990, month := 1, day := 1 },
    flaggedForFraud := false }

def mkLoanC8 (i : Nat) : LoanApplication :=
  { id := some i, user := custC8, amountRequested := 1000, purpose := "PERSONAL",
    status := Status.PENDING, dateApplied := Int.ofNat i }

/-- Fixture: 4 persisted applications of custC8, all inside the window at
now = 10. -/
def stateC8 : State :=
  { customers := [custC8], loans := (List.range 4).map mkLoanC8, flags := [], nextId := 4 }

/-- Fixture: an unsaved candidate of custC8. -/
def candC8 : LoanApplication :=
  { id := none, user := custC8, amountRequested := 1000, purpose := "PERSONAL",
    status := Status.PENDING, dateApplied := 10 }

/-- Fixture: only 3 persisted applications, so with the unsaved candidate
the inclusive count is 4. -/
def stateC8b : State :=
  { customers := [custC8], loans := (List.range 3).map mkLoanC8, flags := [], nextId := 3 }

/-- Fixture: owner whose email domain is x.com. -/
def ownerC9 : Customer :=
  { id := 0, firstName := "Ada", lastName := "Obi", email := "ada@x.com",
    phoneNumber := some "08010000090", dateOfBirth := { year := 1990, month := 2, day := 2 },
    flaggedForFraud := false }

/-- Fixture: 11 customers on the different domain yx.com, whose emails
nevertheless end with the string x.com. -/
def othersC9 : List Customer :=
  (List.range 11).map (fun i =>
    { id := i + 1, firstName := "Bob", lastName := "Eke", email := "bob@yx.com",
      phoneNumber := none, dateOfBirth := { year := 1991, month := 3, day := 3 },
      flaggedForFraud := false })

def stateC9 : State := { customers := ownerC9 :: othersC9, loans := [], flags := [], nextId := 0 }

def ownerC9b : Customer :=
  { id := 100, firstName := "Uche", lastName := "Nnaji", email := "uche@frauddomain.com",
    phoneNumber := some "08010000100", dateOfBirth := { year := 1990, month := 2, day := 2 },
    flaggedForFraud := false }

/-- Fixture: 11 further customers sharing exactly the owner domain. -/
def othersC9b : List Customer :=
  (List.range 11).map (fun i =>
    { id := i + 101, firstName := "Vera", lastName := "Ogu", email := "vera@frauddomain.com",
      phoneNumber := none, dateOfBirth := { year := 1991, month := 3, day := 3 },
      flaggedForFraud := false })

def stateC9b : State :=
  { customers := ownerC9b :: othersC9b, loans := [], flags := [], nextId := 0 }

def custC10 : Customer :=
  { id := 10, firstName := "Wale", lastName := "Kola", email := "wale@cten.com",
    phoneNumber := some "08010000010", dateOfBirth := { year := 1987, month := 1, day := 1 },
    flaggedForFraud := true }

def stateC10 : State := { customers := [custC10], loans := [], flags := [], nextId := 0 }

/-- On an error result of submit_loan, the transaction wrapper returns the
entry state unchanged. -/
lemma submit_error_state_eq (s : State) (now : Int) (c : Customer) (a : Int) (p : String)
    (e : Err) (h : (submit_loan s now c a p).2 = Except.error e) :
    (submit_loan s now c a p).1 = s := by
  rcases hb : submit_loan_body s now c a p with ⟨s2, r⟩
  cases r with
  | error e2 => simp [submit_loan, hb]
  | ok loan => simp [submit_loan, hb] at h

/-- An ineligible customer makes check_eligibility raise one of its two
eligibility errors. -/
lemma check_eligibility_error_of_ineligible (s : State) (now : Int) (c : Customer)
    (h : c.flaggedForFraud = true ∨
      ∃ l ∈ s.loans, l.user.id = c.id ∧ l.dateApplied ≥ now - 24) :
    check_eligibility s now c =
      Except.error (Err.loanApplicationError "User is flagged for fraud.") ∨
    check_eligibility s now c =
      Except.error (Err.loanApplicationError
        "You cannot submit another loan application within 24 hours of your last one.") := by
  by_cases hf : c.flaggedForFraud = true
  · left
    simp [check_eligibility, hf]
  · right
    rcases h with h | ⟨l, hl, h1, h2⟩
    · exact absurd h hf
    · simp [check_eligibility, hf]
      exact ⟨l, hl, h1, by omega⟩

/-- An eligibility error short-circuits submit_loan. -/
lemma submit_loan_of_elig_error (s : State) (now : Int) (c : Customer) (a : Int) (p : String)
    (e : Err) (h : check_eligibility s now c = Except.error e) :
    submit_loan s now c a p = (s, Except.error e) := by
  simp [submit_loan, submit_loan_body, h]

/-- Every Reason member has a non-empty stored value. -/
lemma Reason.value_ne_empty (v : Reason) : v.value ≠ "" := by
  cases v <;> decide

/-- The flag-creation loop on a list of well-formed entries appends exactly
one FraudFlag row per entry and reports no error. -/
lemma processFlags_all_wf (i : Nat) (entries : List FlagEntry) :
    ∀ s : State, entries.all entryWellFormed = true →
      processFlags s i entries =
        ({ s with flags := s.flags ++ entries.map (entryToFlag i) }, none) := by
  induction entries with
  | nil => intro s _; simp [processFlags]
  | cons e rest ih =>
    intro s hall
    obtain ⟨he, hrest⟩ : entryWellFormed e = true ∧ rest.all entryWellFormed = true := by
      simpa [List.all_cons, Bool.and_eq_true] using hall
    cases e with
    | dict r c =>
        have hr : ¬(r.getD "" = "") := by simpa [entryWellFormed] using he
        simp [processFlags, LoanApplication.flag_as_fraud, hr, ih _ hrest, entryToFlag,
          List.append_assoc]
    | reasonCode v =>
        have hr := Reason.value_ne_empty v
        simp [processFlags, LoanApplication.flag_as_fraud, hr, ih _ hrest, entryToFlag,
          List.append_assoc]
    | unsupported d => simp [entryWellFormed] at he

/-- approve_loan never touches the FraudFlag table. -/
lemma approve_loan_flags (s : State) (l : LoanApplication) :
    (LoanManagementService.approve_loan s l).1.flags = s.flags := by
  unfold LoanManagementService.approve_loan
  split
  · rfl
  · split
    · rfl
    · split
      · rfl
      · cases hi : l.id <;> simp [LoanApplication.save, hi]

/-- reject_loan never touches the FraudFlag table. -/
lemma reject_loan_flags (s : State) (l : LoanApplication) :
    (LoanManagementService.reject_loan s l).1.flags = s.flags := by
  unfold LoanManagementService.reject_loan
  split
  · rfl
  · split
    · rfl
    · cases hi : l.id <;> simp [LoanApplication.save, hi]

/-- Claim C1: evidence against the claim as stated.  On a Submit by an
unflagged customer born 1995 with amount 6,000,000, the fraud evaluation
returns the FRAUD verdict and a FLAGGED row with one HIGH_RISK_PROFILE
flag is persisted, but the call itself returns the application
successfully instead of failing: the verdict string is compared with the
misspelled literal "fraudlent", which never matches. -/
theorem submit_on_fraud_verdict_succeeds :
    (FraudDetectionService.run_fraud_checks stateC1 1000 candC1).2 =
      Except.ok (FRAUD, [Reason.HIGH_RISK_PROFILE],
        { candC1 with id := some 0, status := Status.FLAGGED }) ∧
    (submit_loan stateC1 1000 custC1 6000000 "BUSINESS").2 =
      Except.ok { candC1 with id := some 0, status := Status.FLAGGED } ∧
    (submit_loan stateC1 1000 custC1 6000000 "BUSINESS").1.loans.map (fun l => l.status) =
      [Status.FLAGGED] ∧
    (submit_loan stateC1 1000 custC1 6000000 "BUSINESS").1.flags.map (fun f => f.reason) =
      ["HIGH_RISK_PROFILE"] := by decide

/-- Claim C2, counterexample: at amount 2,000,000 with owner born 1990 the
precondition of the claim holds, the high-risk predicate is true, yet the
standalone Approve pre-check is_fraudulent is false (and the reason the
evaluator labels high-risk, amount_exceeds_limit, is false as well), so
the two signals do not both return true. -/
theorem highRisk_precheck_disagree_at_two_million :
    loanC2.amountRequested > 1000000 ∧
    loanC2.user.dateOfBirth.year < 2000 ∧
    LoanApplication.is_high_risk loanC2 = true ∧
    FraudDetectionService.is_fraudulent loanC2 = false ∧
    FraudDetectionService.amount_exceeds_limit loanC2 = false := by decide

/-- Claim C2, amended: for every application with amount over 1,000,000
and owner born before 2000, is_high_risk is true, and the Approve
pre-check is_fraudulent is true exactly when the amount additionally
exceeds MAX_LOAN_AMOUNT (5,000,000): the pre-check strictly strengthens
the high-risk predicate instead of coinciding with it. -/
theorem highRisk_implies_precheck_iff_over_limit (l : LoanApplication)
    (h1 : l.amountRequested > 1000000) (h2 : l.user.dateOfBirth.year < 2000) :
    l.is_high_risk = true ∧
    (FraudDetectionService.is_fraudulent l = true ↔
      l.amountRequested > FraudDetectionService.MAX_LOAN_AMOUNT) := by
  constructor
  · simp [LoanApplication.is_high_risk, Bool.and_eq_true, decide_eq_true_eq]
    exact ⟨h1, h2⟩
  · simp [FraudDetectionService.is_fraudulent, FraudDetectionService.amount_exceeds_limit,
      LoanApplication.is_high_risk, Bool.and_eq_true, decide_eq_true_eq, h1, h2]

/-- Witness for the amended Claim C2 theorem at amount 6,000,000 and owner
born 1990. -/
theorem highRisk_implies_precheck_iff_over_limit_witness :
    loanC2w.is_high_risk = true ∧
    (FraudDetectionService.is_fraudulent loanC2w = true ↔
      loanC2w.amountRequested > FraudDetectionService.MAX_LOAN_AMOUNT) :=
  highRisk_implies_precheck_iff_over_limit loanC2w (by decide) (by decide)

/-- Claim C3, counterexample: run_fraud_checks on a persisted PENDING
application with amount 6,000,000 (owner born 1995) flips the stored
status to FLAGGED and persists a FraudFlag row, so it does mutate
state. -/
theorem run_fraud_checks_mutates_state :
    stateC3.loans.map (fun l => l.status) = [Status.PENDING] ∧
    stateC3.flags = [] ∧
    (FraudDetectionService.run_fraud_checks stateC3 10 loanC3).1.loans.map (fun l => l.status) =
      [Status.FLAGGED] ∧
    (FraudDetectionService.run_fraud_checks stateC3 10 loanC3).1.flags.map (fun f => f.reason) =
      ["HIGH_RISK_PROFILE"] := by decide

/-- Claim C3, amended: RunFraudChecks leaves the state (status and stored
FraudFlag rows) unchanged whenever its verdict is CLEAN; when a rule
fires it delegates to the flagging operation, which mutates state. -/
theorem run_fraud_checks_clean_preserves_state (s : State) (now : Int) (l : LoanApplication)
    (reasons : List Reason) (l2 : LoanApplication)
    (h : (FraudDetectionService.run_fraud_checks s now l).2 = Except.ok (CLEAN, reasons, l2)) :
    (FraudDetectionService.run_fraud_checks s now l).1 = s := by
  by_cases h1 : FraudDetectionService.too_many_applications s now l.user = true
  · simp [FraudDetectionService.run_fraud_checks, h1] at h
  · by_cases h2 : FraudDetectionService.fraud_reasons s l = []
    · simp [FraudDetectionService.run_fraud_checks, h1, h2]
    · rcases h3 : FraudDetectionService.flag_loan s l
          ((FraudDetectionService.fraud_reasons s l).map FlagEntry.reasonCode) with ⟨s1, r⟩
      cases r with
      | ok loan2 =>
          simp [FraudDetectionService.run_fraud_checks, h1, h2, h3, FRAUD, CLEAN] at h
      | error e =>
          simp [FraudDetectionService.run_fraud_checks, h1, h2, h3] at h

/-- Witness for the amended Claim C3 theorem: a CLEAN evaluation leaves
the state unchanged. -/
theorem run_fraud_checks_clean_preserves_state_witness :
    (FraudDetectionService.run_fraud_checks stateC3w 10 loanC3w).1 = stateC3w :=
  run_fraud_checks_clean_preserves_state stateC3w 10 loanC3w [] loanC3w (by decide)

/-- Claim C4, counterexample: on a PENDING application with amount 1000, a
non-empty flags list does not succeed: the fraud-criteria gate inside
flag_loan raises FraudDetectionError and the state is unchanged. -/
theorem flag_nonempty_fails_below_limit :
    loanC4.status = Status.PENDING ∧
    (LoanManagementService.flag_loan stateC4 loanC4 [FlagEntry.reasonCode Reason.OTHER]).2 =
      Except.error (Err.fraudDetectionError "Loan application does not meet fraud criteria.") ∧
    (LoanManagementService.flag_loan stateC4 loanC4 [FlagEntry.reasonCode Reason.OTHER]).1 =
      stateC4 := by decide

/-- Claim C4, amended: for a PENDING application, Flag with an empty list
fails with the validation error and leaves the state unchanged; Flag with
a non-empty list of well-formed entries on an application that meets the
is_fraudulent gate succeeds, sets FLAGGED, appends exactly one FraudFlag
per entry (reasons equal to the entries, in order), and returns the
updated application. -/
theorem flag_pending_full_behavior (s : State) (l : LoanApplication)
    (entries : List FlagEntry) (i : Nat)
    (hp : l.status = Status.PENDING) (hid : l.id = some i)
    (hne : entries ≠ []) (hwf : entries.all entryWellFormed = true)
    (hfr : FraudDetectionService.is_fraudulent l = true) :
    ((LoanManagementService.flag_loan s l []).1 = s ∧
     (LoanManagementService.flag_loan s l []).2 =
       Except.error (Err.valueError "At least one flag must be provided.")) ∧
    ((LoanManagementService.flag_loan s l entries).2 =
       Except.ok { l with status := Status.FLAGGED } ∧
     (LoanManagementService.flag_loan s l entries).1.flags =
       s.flags ++ entries.map (entryToFlag i) ∧
     (LoanManagementService.flag_loan s l entries).1.loans =
       (updateLoanRow s i { l with status := Status.FLAGGED }).loans) := by
  obtain ⟨lid, luser, lam, lpur, lst, lda⟩ := l
  dsimp only at hp hid hfr
  subst hp
  subst hid
  constructor
  · constructor
    · simp [LoanManagementService.flag_loan, FraudDetectionService.flag_loan]
    · simp [LoanManagementService.flag_loan, FraudDetectionService.flag_loan]
  · have hpf := processFlags_all_wf i entries
      { s with loans := (s.loans.map (fun x =>
          if x.id = some i then ⟨some i, luser, lam, lpur, Status.FLAGGED, lda⟩ else x)) } hwf
    refine ⟨?_, ?_, ?_⟩ <;>
      simp [LoanManagementService.flag_loan, FraudDetectionService.flag_loan, hne, hfr,
        LoanApplication.save, assignedLoanId, hpf, updateLoanRow]

/-- Witness for the amended Claim C4 theorem at a PENDING application
meeting the gate, with two well-formed entries. -/
theorem flag_pending_full_behavior_witness :
    ((LoanManagementService.flag_loan stateC4w loanC4w []).1 = stateC4w ∧
     (LoanManagementService.flag_loan stateC4w loanC4w []).2 =
       Except.error (Err.valueError "At least one flag must be provided.")) ∧
    ((LoanManagementService.flag_loan stateC4w loanC4w entriesC4w).2 =
       Except.ok { loanC4w with status := Status.FLAGGED } ∧
     (LoanManagementService.flag_loan stateC4w loanC4w entriesC4w).1.flags =
       stateC4w.flags ++ entriesC4w.map (entryToFlag 0) ∧
     (LoanManagementService.flag_loan stateC4w loanC4w entriesC4w).1.loans =
       (updateLoanRow stateC4w 0 { loanC4w with status := Status.FLAGGED }).loans) :=
  flag_pending_full_behavior stateC4w loanC4w entriesC4w 0 rfl rfl (by decide) (by decide)
    (by decide)

/-- Claim C5, counterexample: the admin Flag operation is not atomic.  On
a PENDING application meeting the fraud gate, a single malformed flag
entry makes the call fail after the status write: afterwards the stored
row is FLAGGED while the FraudFlag table is still empty. -/
theorem flag_malformed_entry_partial_write :
    (LoanManagementService.flag_loan stateC5 loanC5 [FlagEntry.unsupported "MagicMock"]).2 =
      Except.error (Err.valueError "Unsupported flag entry: MagicMock") ∧
    (LoanManagementService.flag_loan stateC5 loanC5
        [FlagEntry.unsupported "MagicMock"]).1.loans.map (fun l => l.status) =
      [Status.FLAGGED] ∧
    (LoanManagementService.flag_loan stateC5 loanC5
        [FlagEntry.unsupported "MagicMock"]).1.flags = [] := by decide

/-- Claim C5, amended: Submit is atomic (an error restores the entry
state), Approve and Reject never create FraudFlags, but Flag is not
atomic: failing on a malformed entry leaves the FLAGGED status persisted
with the corresponding flags missing. -/
theorem submit_atomic_but_flag_not (s : State) (now : Int) (c : Customer)
    (a : Int) (p : String) (e : Err)
    (s2 : State) (l : LoanApplication) (i : Nat) (d : String)
    (s3 : State) (l2 : LoanApplication) (s4 : State) (l3 : LoanApplication)
    (hsub : (submit_loan s now c a p).2 = Except.error e)
    (hp : l.status = Status.PENDING) (hid : l.id = some i)
    (hfr : FraudDetectionService.is_fraudulent l = true) :
    (submit_loan s now c a p).1 = s ∧
    (LoanManagementService.approve_loan s3 l2).1.flags = s3.flags ∧
    (LoanManagementService.reject_loan s4 l3).1.flags = s4.flags ∧
    ((LoanManagementService.flag_loan s2 l [FlagEntry.unsupported d]).2 =
       Except.error (Err.valueError ("Unsupported flag entry: " ++ d)) ∧
     (LoanManagementService.flag_loan s2 l [FlagEntry.unsupported d]).1.loans =
       (updateLoanRow s2 i { l with status := Status.FLAGGED }).loans ∧
     (LoanManagementService.flag_loan s2 l [FlagEntry.unsupported d]).1.flags = s2.flags) := by
  refine ⟨submit_error_state_eq s now c a p e hsub, approve_loan_flags s3 l2,
    reject_loan_flags s4 l3, ?_, ?_, ?_⟩ <;>
    simp [LoanManagementService.flag_loan, FraudDetectionService.flag_loan, hp, hfr,
      LoanApplication.save, assignedLoanId, hid, processFlags, updateLoanRow]

/-- Witness for the amended Claim C5 theorem: a flagged customer makes
Submit error with the entry state restored, while Flag on a malformed
entry leaves a FLAGGED row behind with no flags. -/
theorem submit_atomic_but_flag_not_witness :
    (submit_loan stateC5f 0 custC5f 5000 "PERSONAL").1 = stateC5f ∧
    (LoanManagementService.approve_loan stateC5 loanC5).1.flags = stateC5.flags ∧
    (LoanManagementService.reject_loan stateC5 loanC5).1.flags = stateC5.flags ∧
    ((LoanManagementService.flag_loan stateC5 loanC5 [FlagEntry.unsupported "raw string"]).2 =
       Except.error (Err.valueError ("Unsupported flag entry: " ++ "raw string")) ∧
     (LoanManagementService.flag_loan stateC5 loanC5
        [FlagEntry.unsupported "raw string"]).1.loans =
       (updateLoanRow stateC5 0 { loanC5 with status := Status.FLAGGED }).loans ∧
     (LoanManagementService.flag_loan stateC5 loanC5
        [FlagEntry.unsupported "raw string"]).1.flags = stateC5.flags) :=
  submit_atomic_but_flag_not stateC5f 0 custC5f 5000 "PERSONAL"
    (Err.loanApplicationError "User is flagged for fraud.") stateC5 loanC5 0 "raw string"
    stateC5 loanC5 stateC5 loanC5 (by decide) rfl rfl (by decide)

/-- Claim C6: for every customer either flagged for fraud or owning any
application dated within the trailing 24 hours, Submit fails with one of
the two eligibility errors, for every amount and purpose, and the state
(hence the set of applications) is unchanged. -/
theorem submit_ineligible_always_fails (s : State) (now : Int) (c : Customer)
    (a : Int) (p : String)
    (h : c.flaggedForFraud = true ∨
      ∃ l ∈ s.loans, l.user.id = c.id ∧ l.dateApplied ≥ now - 24) :
    ((submit_loan s now c a p).2 =
        Except.error (Err.loanApplicationError "User is flagged for fraud.") ∨
     (submit_loan s now c a p).2 =
        Except.error (Err.loanApplicationError
          "You cannot submit another loan application within 24 hours of your last one.")) ∧
    (submit_loan s now c a p).1 = s := by
  rcases check_eligibility_error_of_ineligible s now c h with he | he <;>
    rw [submit_loan_of_elig_error s now c a p _ he] <;> simp

/-- Witness for the Claim C6 theorem at a flagged customer. -/
theorem submit_ineligible_always_fails_witness :
    ((submit_loan stateC6 0 custC6 5000 "PERSONAL").2 =
        Except.error (Err.loanApplicationError "User is flagged for fraud.") ∨
     (submit_loan stateC6 0 custC6 5000 "PERSONAL").2 =
        Except.error (Err.loanApplicationError
          "You cannot submit another loan application within 24 hours of your last one.")) ∧
    (submit_loan stateC6 0 custC6 5000 "PERSONAL").1 = stateC6 :=
  submit_ineligible_always_fails stateC6 0 custC6 5000 "PERSONAL" (Or.inl rfl)

/-- Claim C7, counterexample: Reject on a FLAGGED (hence not PENDING)
application does not fail: it succeeds and persists REJECTED. -/
theorem reject_flagged_succeeds :
    loanC7.status = Status.FLAGGED ∧
    (LoanManagementService.reject_loan stateC7 loanC7).2 =
      Except.ok { loanC7 with status := Status.REJECTED } ∧
    (LoanManagementService.reject_loan stateC7 loanC7).1.loans.map (fun l => l.status) =
      [Status.REJECTED] := by decide

/-- Claim C7, amended: Reject fails with InvalidStateError exactly from
APPROVED or REJECTED (leaving the state unchanged, so a second Reject on
a REJECTED application fails with no side effects), and from PENDING or
FLAGGED it sets REJECTED and persists. -/
theorem reject_state_machine (s : State) (l : LoanApplication) (i : Nat)
    (hid : l.id = some i) :
    ((l.status = Status.APPROVED ∨ l.status = Status.REJECTED) →
      (LoanManagementService.reject_loan s l).1 = s ∧
      ((LoanManagementService.reject_loan s l).2 =
         Except.error (Err.loanApplicationError "Cannot reject an approved loan.") ∨
       (LoanManagementService.reject_loan s l).2 =
         Except.error (Err.loanApplicationError "Loan application has already been rejected."))) ∧
    ((l.status = Status.PENDING ∨ l.status = Status.FLAGGED) →
      (LoanManagementService.reject_loan s l).2 =
        Except.ok { l with status := Status.REJECTED } ∧
      (LoanManagementService.reject_loan s l).1.loans =
        (updateLoanRow s i { l with status := Status.REJECTED }).loans ∧
      (LoanManagementService.reject_loan s l).1.flags = s.flags) := by
  cases hs : l.status <;>
    simp [LoanManagementService.reject_loan, hs, LoanApplication.save, hid, updateLoanRow]

/-- Witness for the amended Claim C7 theorem: a second Reject on an
already-REJECTED application fails and leaves the state unchanged. -/
theorem reject_state_machine_witness :
    (LoanManagementService.reject_loan stateC7b loanC7b).1 = stateC7b ∧
    ((LoanManagementService.reject_loan stateC7b loanC7b).2 =
       Except.error (Err.loanApplicationError "Cannot reject an approved loan.") ∨
     (LoanManagementService.reject_loan stateC7b loanC7b).2 =
       Except.error (Err.loanApplicationError "Loan application has already been rejected.")) :=
  (reject_state_machine stateC7b loanC7b 0 rfl).1 (Or.inr rfl)

/-- Claim C8: evidence against the claim as stated.  With 4 persisted
applications in the window the rule predicate fires, but run_fraud_checks
then raises the AttributeError for the missing Reason member instead of
producing a too-many-applications reason (the state is untouched); and
with 3 persisted applications plus the unsaved candidate, the inclusive
count exceeds 3 yet the predicate does not fire, because the count query
sees only persisted rows. -/
theorem too_many_rule_crash_and_exclusive_count :
    FraudDetectionService.too_many_applications stateC8 10 custC8 = true ∧
    (FraudDetectionService.run_fraud_checks stateC8 10 candC8).2 =
      Except.error (Err.attributeError
        "type object Reason has no attribute TOO_MANY_APPLICATIONS") ∧
    (FraudDetectionService.run_fraud_checks stateC8 10 candC8).1 = stateC8 ∧
    FraudDetectionService.too_many_applications stateC8b 10 custC8 = false ∧
    (stateC8b.loans.filter
      (fun l => decide (l.user.id = custC8.id ∧ l.dateApplied ≥ (10 : Int) - 24))).length + 1 > 3
    := by decide

/-- Claim C9: evidence against the claim as stated.  The rule counts by an
unanchored suffix match: with 11 customers on the different domain yx.com
the rule fires for an owner on x.com although exactly one registered
customer (the owner) has the domain x.com; on equal-domain data (11
further customers sharing the owner domain) the rule fires as the claim
describes. -/
theorem suspicious_domain_suffix_overcount :
    FraudDetectionService.suspicious_email_domain stateC9 ownerC9 = true ∧
    (stateC9.customers.filter
      (fun c => emailDomain c.email = emailDomain ownerC9.email)).length = 1 ∧
    FraudDetectionService.suspicious_email_domain stateC9b ownerC9b = true := by decide

/-- Claim C10: whenever submit_loan returns an error, the transaction
wrapper discards every write of the call: the stored applications and
FraudFlag rows afterwards are exactly those before the call. -/
theorem submit_error_rolls_back_all_writes (s : State) (now : Int) (c : Customer)
    (a : Int) (p : String) (e : Err)
    (h : (submit_loan s now c a p).2 = Except.error e) :
    (submit_loan s now c a p).1.loans = s.loans ∧
    (submit_loan s now c a p).1.flags = s.flags := by
  rw [submit_error_state_eq s now c a p e h]
  exact ⟨rfl, rfl⟩

/-- Witness for the Claim C10 theorem at a flagged customer. -/
theorem submit_error_rolls_back_all_writes_witness :
    (submit_loan stateC10 0 custC10 7000 "MEDICAL").1.loans = stateC10.loans ∧
    (submit_loan stateC10 0 custC10 7000 "MEDICAL").1.flags = stateC10.flags :=
  submit_error_rolls_back_all_writes stateC10 0 custC10 7000 "MEDICAL"
    (Err.loanApplicationError "User is flagged for fraud.") (by decide)
